import Mathlib

/-!
# Verification of the AI brochure-generator pipeline

A shallow embedding of the content-aggregation pipeline of
`src/main_streamlit.py` (the Streamlit AI brochure generator), with proofs of
the testable properties stated in its specification.

Modelling conventions:
* Python exceptions are modelled with `Except`: an operation that may raise
  returns `Except PyErr _`, a `try/except` block is a `match` on that value.
* External collaborators (the HTTP library, `urljoin`, the generative-model
  API, `urlparse`) are parameters of the embedded functions: an oracle fixes
  the outcome of each external call, and theorems quantify over all oracles.
* A fetched HTTP response, as seen through BeautifulSoup, is abstracted to the
  fields the code actually reads: the title element, the cleaned body text
  (the decompose/get_text pipeline is abstracted to its resulting string), and
  the ordered list of anchor `href` attributes.
* Loosely-typed JSON values flowing out of the classifier are modelled by
  `PyVal` (string or integer) and `Item` (a dict with optional `url`/`type`
  fields, or a non-dict element), enough to express both well-formed
  candidates and the structurally malformed data the code can receive.
* The aggregated document, built in the source by successive `+=` of one
  marker-delimited block per page, is modelled as the list of those blocks;
  the source's string is their concatenation.
-/

/-- Python exception kinds relevant to this program. -/
inductive PyErr
  | attributeError
  | unboundLocal
  | apiError
  deriving DecidableEq, Repr

/-- A `requests` failure: network error, timeout, or the `HTTPError` raised by
`raise_for_status` on a non-2xx response. All are `RequestException`s, the
class caught by `Website.__init__`. -/
inductive ReqErr
  | requestException
  deriving DecidableEq, Repr

/-- A successfully fetched page as seen through BeautifulSoup: `soup.title`
(if the document has a title element, with its text), the cleaned body text
(`soup.body.get_text` after decomposing script/style/img/input/nav/footer/
header; `none` when the document has no body element), and the `href`
attribute of each anchor element in document order (`none` when the anchor has
no `href`). -/
structure Html where
  titleElem : Option String
  bodyText : Option String
  anchors : List (Option String)
  deriving DecidableEq, Repr

/-- The `Website` object: url, title, cleaned text and extracted links. -/
structure Website where
  url : String
  title : String
  text : String
  links : List String
  deriving DecidableEq, Repr

/-- The guard of the link list comprehension in `Website.__init__`:
`if link and not link.startswith(('#', 'mailto:', 'tel:'))`. An empty string
is falsy in Python, so `if link` drops both missing (`None`) and empty hrefs;
`none` hrefs are dropped by the match in `extract_links`. -/
def linkGuard (l : String) : Bool :=
  !(l == "") && !(l.startsWith "#") && !(l.startsWith "mailto:") && !(l.startsWith "tel:")

/-- The list comprehension of `Website.__init__`:
`[urljoin(self.url, link) for link in page_links if link and not
link.startswith(('#', 'mailto:', 'tel:'))]`, iterating over the anchors'
`href` attributes in document order. `join` is the `urljoin` oracle. -/
def extract_links (join : String → String → String) (url : String) :
    List (Option String) → List String
  | [] => []
  | none :: rest => extract_links join url rest
  | some l :: rest =>
    if linkGuard l then join url l :: extract_links join url rest
    else extract_links join url rest

/-- `Website.__init__`. The fields are initialised to their defaults
(`"No title found"`, empty text, no links) before the `try` block; `result`
is the outcome of `requests.get` + `raise_for_status`; any
`RequestException` is caught, leaving the defaults in place. -/
def Website.init (join : String → String → String) (url : String)
    (result : Except ReqErr Html) : Website :=
  match result with
  | .error _ => { url := url, title := "No title found", text := "", links := [] }
  | .ok soup =>
    { url := url
      title := match soup.titleElem with
        | some t => t
        | none => "No title found"
      text := match soup.bodyText with
        | some t => t
        | none => ""
      links := extract_links join url soup.anchors }

/-- `Website.get_contents`. -/
def Website.get_contents (w : Website) : String :=
  "Webpage Title: " ++ w.title ++ "\nWebpage Contents:\n" ++ w.text ++ "\n\n"

/-- `Modelled from the spec:` the spec's own description of link extraction
(§4.1 / claim sentence), which excludes only anchors whose `href` is
*missing* or starts with `#`, `mailto:` or `tel:` — it does not mention
present-but-empty hrefs. Used to compare the spec's wording with the code. -/
def extract_links_spec (join : String → String → String) (url : String)
    (hrefs : List (Option String)) : List String :=
  ((hrefs.filterMap id).filter fun l =>
    !(l.startsWith "#") && !(l.startsWith "mailto:") && !(l.startsWith "tel:")).map (join url)

/-- A concrete stand-in for `urljoin` used in closed witnesses and
counterexamples: `urljoin(base, "") = base`, and here a non-empty relative
part just replaces the base (the theorems quantifying over `join` do not
depend on this choice). -/
def join0 (base rel : String) : String :=
  if rel == "" then base else rel

/-- A loosely-typed JSON scalar as returned inside the classifier's parsed
response: the code may find a string or (malformed) a number where it expects
a string. -/
inductive PyVal
  | vstr (s : String)
  | vint (n : Int)
  deriving DecidableEq, Repr

/-- Python truthiness of a `PyVal`: the empty string and `0` are falsy. -/
def pyTruthy : PyVal → Bool
  | .vstr s => !(s == "")
  | .vint n => !(n == 0)

/-- Python `str()` of a `PyVal` (used when a value is interpolated into an
f-string or passed to `requests.get`, which stringifies its argument). -/
def pyStr : PyVal → String
  | .vstr s => s
  | .vint n => toString n

/-- Python `str.title()` (ASCII model): the first alphabetic character of
each run of alphabetic characters is uppercased, the rest lowercased,
non-alphabetic characters are unchanged. -/
def pyTitleGo : Bool → List Char → List Char
  | _, [] => []
  | prevAlpha, c :: cs =>
    if c.isAlpha then
      (if prevAlpha then c.toLower else c.toUpper) :: pyTitleGo true cs
    else
      c :: pyTitleGo false cs

/-- Python `str.title()` on a string. -/
def pyTitle (s : String) : String :=
  ⟨pyTitleGo false s.data⟩

/-- `v.title()` on a loosely-typed value: raises `AttributeError` when the
value is not a string. -/
def pyTitleVal : PyVal → Except PyErr String
  | .vstr s => .ok (pyTitle s)
  | .vint _ => .error .attributeError

/-- One element of the `"links"` list in the classifier's parsed JSON: either
a dict (with optional `"url"` and `"type"` entries, each a loosely-typed
value) or a non-dict element such as a bare string, on which `.get` raises
`AttributeError`. -/
inductive Item
  | idict (url : Option PyVal) (ty : Option PyVal)
  | istr (s : String)
  deriving DecidableEq, Repr

/-- `get_relevant_links`: the prompt construction, model call and
`json.loads` + `result_json.get("links", [])` are wrapped in
`try/except Exception`, so any error outcome degrades to the empty list;
a successful outcome is the (possibly malformed) candidate list itself.
`outcome` is the oracle for the model call and parse. -/
def get_relevant_links (outcome : Except PyErr (List Item)) : List Item :=
  match outcome with
  | .ok items => items
  | .error _ => []

/-- The landing-page block of `get_all_details`:
`f"== START: Content from Landing Page ({url}) ==\n{main_site.get_contents()}== END: Content from Landing Page ==\n\n"`. -/
def landingSection (url : String) (mainSite : Website) : String :=
  "== START: Content from Landing Page (" ++ url ++ ") ==\n"
    ++ mainSite.get_contents ++ "== END: Content from Landing Page ==\n\n"

/-- One sub-page block of `get_all_details`, for label `ty` (already
title-cased), url `u` and fetched contents `content`. -/
def subSection (ty u content : String) : String :=
  "== START: Content from " ++ ty ++ " Page (" ++ u ++ ") ==\n"
    ++ content ++ "== END: Content from " ++ ty ++ " Page ==\n\n"

/-- The `for link_info in relevant_links` loop of `get_all_details`, producing
the list of appended sub-page blocks. Per iteration: `link_info.get("url")`
raises `AttributeError` on a non-dict element; `link_type =
link_info.get("type", "page")`; `if link_url:` skips falsy (missing or empty)
urls; otherwise the page at `str(link_url)` is fetched (`Website` never
raises) and the block is appended with label `link_type.title()` — which
raises `AttributeError` when the type value is not a string. An uncaught
exception aborts the loop and propagates out of `get_all_details`. -/
def detailsLoop (fetchPage : String → Website) : List Item → Except PyErr (List String)
  | [] => .ok []
  | .istr _ :: _ => .error .attributeError
  | .idict u t :: rest =>
    match u with
    | none => detailsLoop fetchPage rest
    | some v =>
      if pyTruthy v then
        match pyTitleVal ((t.getD (.vstr "page"))) with
        | .error e => .error e
        | .ok ty =>
          match detailsLoop fetchPage rest with
          | .error e => .error e
          | .ok restBlocks =>
            .ok (subSection ty (pyStr v) ((fetchPage (pyStr v)).get_contents) :: restBlocks)
      else detailsLoop fetchPage rest

/-- `get_all_details`, returning the list of marker-delimited blocks whose
concatenation is the source's `all_text` (or the uncaught exception).
`fetch` is the oracle for `requests.get` on each URL; `classify` is the
oracle for the classifier's model call + parse, fed (as in the source) with
the landing page's url and extracted links. The landing-page block is always
built first; if `relevant_links` is empty (falsy) the function returns with
only that block. -/
def get_all_details (join : String → String → String)
    (fetch : String → Except ReqErr Html)
    (classify : String → List String → Except PyErr (List Item))
    (url : String) : Except PyErr (List String) :=
  let mainSite := Website.init join url (fetch url)
  let allText := [landingSection url mainSite]
  let relevantLinks := get_relevant_links (classify url mainSite.links)
  if relevantLinks.isEmpty then .ok allText
  else
    match detailsLoop (fun u => Website.init join u (fetch u)) relevantLinks with
    | .error e => .error e
    | .ok blocks => .ok (allText ++ blocks)

/-- The chunk-consuming loop of `stream_brochure`: each element of `chunks`
is the outcome of advancing the model stream and reading `chunk.text`; the
first error is caught by the surrounding `except`, which yields `""` and ends
the generator. -/
def streamLoop : List (Except PyErr String) → List String
  | [] => []
  | .ok s :: rest => s :: streamLoop rest
  | .error _ :: _ => [""]

/-- `stream_brochure` as the finite sequence of yielded fragments. `setup` is
the oracle for `GenerativeModel(...)` + `generate_content(stream=True)`: on a
setup error the `except` branch yields a single `""`; otherwise the stream is
consumed chunk by chunk until exhaustion or the first mid-stream error. The
generator never raises: every outcome yields a plain list of fragments. -/
def stream_brochure (setup : Except PyErr (List (Except PyErr String))) : List String :=
  match setup with
  | .error _ => [""]
  | .ok chunks => streamLoop chunks

/-- Outcome of `configure_api`: the API was configured; the run was halted
cleanly by `st.error` + `st.stop` (the spec's fatal configuration error); or
an unrelated Python exception escaped. -/
inductive ConfigResult
  | configured
  | stopped
  | raised (e : PyErr)
  deriving DecidableEq, Repr

/-- `configure_api`. `secrets` is `st.secrets["GEMINI_API_KEY"]` when the key
is present. In the absent-key branch the source reads `pass()` — a Python
*syntax error*, so the module cannot even be imported; read generously as a
no-op `pass` (the commented-out `.env` fallback), `api_key` is never assigned
and the subsequent `if not api_key:` raises `NameError`/`UnboundLocalError`,
modelled as `.raised .unboundLocal`. With a present but falsy (empty) key, or
when `genai.configure` fails, the code reaches `st.error` + `st.stop`,
modelled as `.stopped`. `genaiOk k` is the oracle for `genai.configure`
succeeding on key `k`. -/
def configure_api (secrets : Option String) (genaiOk : String → Bool) : ConfigResult :=
  match secrets with
  | none => .raised .unboundLocal
  | some k =>
    if k == "" then .stopped
    else if genaiOk k then .configured
    else .stopped

/-- The result of `urlparse` as used by `run_app`: only the `scheme` and
`netloc` (host) attributes are consulted. -/
structure ParsedUrl where
  scheme : String
  netloc : String
  deriving DecidableEq, Repr

/-- Outcome of one `run_app` request after the Generate button is pressed:
rejected by input validation (`st.warning` + `st.stop`, before any pipeline
call), aborted by an exception escaping `get_all_details`, or completed with
the aggregated blocks and the streamed brochure fragments. -/
inductive RunOutcome
  | rejected
  | raisedErr (e : PyErr)
  | completed (blocks : List String) (brochure : List String)
  deriving DecidableEq, Repr

/-- The request-handling branch of `run_app` (`if generate_button:`).
Validation first: `if not company_name or not url:` stops; then
`urlparse(url)` and `if not all([parsed_url.scheme, parsed_url.netloc]):`
stops (empty strings are falsy). Only then does the pipeline run:
`get_all_details` followed by `stream_brochure` over the concatenated text.
`parse` is the `urlparse` oracle; `setup` the generation-stream oracle, fed
with company name, serialized document and tone as in the source prompts. -/
def run_app (parse : String → ParsedUrl)
    (join : String → String → String)
    (fetch : String → Except ReqErr Html)
    (classify : String → List String → Except PyErr (List Item))
    (setup : String → String → String → Except PyErr (List (Except PyErr String)))
    (companyName url tone : String) : RunOutcome :=
  if companyName == "" || url == "" then .rejected
  else
    let p := parse url
    if p.scheme == "" || p.netloc == "" then .rejected
    else
      match get_all_details join fetch classify url with
      | .error e => .raisedErr e
      | .ok blocks =>
        .completed blocks (stream_brochure (setup companyName (String.join blocks) tone))

/-- A structurally well-formed candidate value: `none` or a string. -/
def optStrOk : Option PyVal → Bool
  | none => true
  | some (.vstr _) => true
  | some (.vint _) => false

/-- A structurally well-formed candidate: a dict whose `url` and `type`
values (when present) are strings — the shape `{"type": string, "url":
string}` the spec's data model prescribes, with fields possibly missing. -/
def wellFormedItem : Item → Bool
  | .idict u t => optStrOk u && optStrOk t
  | .istr _ => false

/-- A valid candidate in the sense of spec §8 property 4: a dict carrying a
non-empty string url (and a well-formed type field). -/
def validItem : Item → Bool
  | .idict (some (.vstr u)) t => !(u == "") && optStrOk t
  | _ => false

/-- Does the candidate carry a truthy `url` value (so that the loop fetches
it and appends a block)? -/
def hasUrlVal : Item → Bool
  | .idict (some v) _ => pyTruthy v
  | _ => false

/-- The block `detailsLoop` appends for a single candidate, `none` when the
candidate is skipped; on well-formed candidates the loop is exactly a
`filterMap` of this function. -/
def itemBlock (fetchPage : String → Website) : Item → Option String
  | .istr _ => none
  | .idict u t =>
    match u with
    | none => none
    | some v =>
      if pyTruthy v then
        match pyTitleVal (t.getD (.vstr "page")) with
        | .error _ => none
        | .ok ty => some (subSection ty (pyStr v) ((fetchPage (pyStr v)).get_contents))
      else none

/-- The url string a candidate dict carries (after Python's `str()`), `""`
for candidates without one. -/
def candUrl : Item → String
  | .idict (some v) _ => pyStr v
  | _ => ""

/-- The title-cased label a candidate's block gets: `link_type.title()` with
the `"page"` default for a missing `type` field. -/
def candLabel : Item → String
  | .idict _ (some (.vstr ty)) => pyTitle ty
  | _ => pyTitle "page"

/-- The block produced for a valid candidate (non-empty string url): label,
url, and the contents fetched from that url. -/
def validItemBlock (fetchPage : String → Website) (it : Item) : String :=
  subSection (candLabel it) (candUrl it) ((fetchPage (candUrl it)).get_contents)

/-- Concrete oracle: every `requests.get` fails with a `RequestException`. -/
def fetch0 : String → Except ReqErr Html :=
  fun _ => .error .requestException

/-- Concrete oracle: the classifier's model call / parse raises. -/
def classifyErr : String → List String → Except PyErr (List Item) :=
  fun _ _ => .error .apiError

/-- Concrete oracle: the classifier's JSON parses but the `"links"` list
holds a bare string instead of a dict. -/
def classifyMalformed : String → List String → Except PyErr (List Item) :=
  fun _ _ => .ok [.istr "h"]

/-- Concrete oracle: one classifier candidate whose url, `"about"`, is a
relative (non-absolute) URL. -/
def classifyRelative : String → List String → Except PyErr (List Item) :=
  fun _ _ => .ok [.idict (some (.vstr "about")) (some (.vstr "About Us"))]

/-- Two well-formed classifier candidates with absolute urls. -/
def items2 : List Item :=
  [.idict (some (.vstr "https://acme.test/about")) (some (.vstr "About")),
   .idict (some (.vstr "https://acme.test/careers")) (some (.vstr "Careers"))]

/-- Concrete oracle: the classifier returns `items2`. -/
def classifyTwo : String → List String → Except PyErr (List Item) :=
  fun _ _ => .ok items2

/-- Mixed classifier candidates for closed instances: one with a url and no
type field, one with no url field, one with an empty-string url. -/
def itemsMixed : List Item :=
  [.idict (some (.vstr "https://acme.test/x")) none,
   .idict none (some (.vstr "Careers")),
   .idict (some (.vstr "")) (some (.vstr "About"))]

/-- Concrete oracle: the classifier returns `itemsMixed`. -/
def classifyMixed : String → List String → Except PyErr (List Item) :=
  fun _ _ => .ok itemsMixed

/-- Concrete oracle: `urlparse` finds neither scheme nor netloc. -/
def parse0 : String → ParsedUrl :=
  fun _ => { scheme := "", netloc := "" }

/-- Concrete oracle: generation-stream setup fails. -/
def setup0 : String → String → String → Except PyErr (List (Except PyErr String)) :=
  fun _ _ _ => .error .apiError

/-- On a list of well-formed candidates the loop never raises and produces
exactly the blocks of the candidates with truthy urls, in list order. -/
theorem detailsLoop_wellFormed (fetchPage : String → Website) :
    ∀ items : List Item, (∀ it ∈ items, wellFormedItem it = true) →
      detailsLoop fetchPage items = .ok (items.filterMap (itemBlock fetchPage)) := by
  intro items
  induction items with
  | nil => intro _; rfl
  | cons it rest ih =>
    intro h
    have hit : wellFormedItem it = true := h it (List.mem_cons_self it rest)
    have hrest := ih fun x hx => h x (List.mem_cons_of_mem it hx)
    match it with
    | .istr s => simp [wellFormedItem] at hit
    | .idict u t =>
      match u with
      | none => simpa [detailsLoop, itemBlock, List.filterMap] using hrest
      | some v =>
        by_cases hv : pyTruthy v = true
        · have ht : optStrOk t = true := by
            simp [wellFormedItem, Bool.and_eq_true] at hit
            exact hit.2
          match t with
          | none =>
            simp [detailsLoop, itemBlock, hv, pyTitleVal, Option.getD, hrest, List.filterMap]
          | some (.vstr s) =>
            simp [detailsLoop, itemBlock, hv, pyTitleVal, Option.getD, hrest, List.filterMap]
          | some (.vint n) => simp [optStrOk] at ht
        · have hv' : pyTruthy v = false := by simpa using hv
          simp [detailsLoop, itemBlock, hv', hrest, List.filterMap]

/-- A well-formed candidate produces a block exactly when its url value is
truthy. -/
theorem itemBlock_isSome (fetchPage : String → Website) (it : Item)
    (h : wellFormedItem it = true) :
    (itemBlock fetchPage it).isSome = hasUrlVal it := by
  match it with
  | .istr s => simp [wellFormedItem] at h
  | .idict u t =>
    match u with
    | none => simp [itemBlock, hasUrlVal]
    | some v =>
      by_cases hv : pyTruthy v = true
      · have ht : optStrOk t = true := by
          simp [wellFormedItem, Bool.and_eq_true] at h
          exact h.2
        match t with
        | none => simp [itemBlock, hasUrlVal, hv, pyTitleVal, Option.getD]
        | some (.vstr s) => simp [itemBlock, hasUrlVal, hv, pyTitleVal, Option.getD]
        | some (.vint n) => simp [optStrOk] at ht
      · have hv' : pyTruthy v = false := by simpa using hv
        simp [itemBlock, hasUrlVal, hv']

/-- Length of a `filterMap` as a count of the elements mapped to `some`. -/
theorem length_filterMap_eq_countP {α β : Type} (f : α → Option β) :
    ∀ l : List α, (l.filterMap f).length = l.countP fun x => (f x).isSome := by
  intro l
  induction l with
  | nil => rfl
  | cons x xs ih =>
    match hx : f x with
    | none =>
      simp [List.filterMap, hx, List.countP_cons, ih]
    | some b =>
      simp [List.filterMap, hx, List.countP_cons, ih]

/-- C3: for every URL whose HTTP fetch fails (network failure, timeout, or
non-2xx status — all `RequestException`s, caught by `Website.__init__`), the
constructed `Website` has empty body text, the default title
`"No title found"`, and an empty link list; the exception is not re-raised
(the embedding is total: the error branch returns the default object). -/
theorem fetch_failure_yields_default_page
    (join : String → String → String) (url : String) (e : ReqErr) :
    Website.init join url (.error e) =
      { url := url, title := "No title found", text := "", links := [] } :=
  rfl

/-- A valid candidate is in particular well-formed. -/
theorem validItem_wellFormed (it : Item) (h : validItem it = true) :
    wellFormedItem it = true := by
  match it with
  | .istr s => simp [validItem] at h
  | .idict none t => simp [validItem] at h
  | .idict (some (.vint n)) t => simp [validItem] at h
  | .idict (some (.vstr u)) t =>
    simp [validItem, Bool.and_eq_true] at h
    simp only [wellFormedItem, Bool.and_eq_true]
    exact ⟨rfl, h.2⟩

/-- A valid candidate always produces its block. -/
theorem itemBlock_of_valid (fetchPage : String → Website) (it : Item)
    (h : validItem it = true) :
    itemBlock fetchPage it = some (validItemBlock fetchPage it) := by
  match it with
  | .istr s => simp [validItem] at h
  | .idict none t => simp [validItem] at h
  | .idict (some (.vint n)) t => simp [validItem] at h
  | .idict (some (.vstr u)) t =>
    simp [validItem, Bool.and_eq_true] at h
    have hu : (u == "") = false := by
      cases hu' : u == "" with
      | false => rfl
      | true => exact absurd (by simpa using hu') h.1
    match t with
    | none =>
      simp [itemBlock, pyTruthy, hu, pyTitleVal, Option.getD, validItemBlock,
        candLabel, candUrl, pyStr]
    | some (.vstr s) =>
      simp [itemBlock, pyTruthy, hu, pyTitleVal, Option.getD, validItemBlock,
        candLabel, candUrl, pyStr]
    | some (.vint n) =>
      simp [optStrOk] at h

/-- On a list of valid candidates the `filterMap` of blocks is a `map`: one
block per candidate, in candidate order. -/
theorem filterMap_itemBlock_of_valid (fetchPage : String → Website) :
    ∀ items : List Item, (∀ it ∈ items, validItem it = true) →
      items.filterMap (itemBlock fetchPage) = items.map (validItemBlock fetchPage) := by
  intro items
  induction items with
  | nil => intro _; rfl
  | cons it rest ih =>
    intro h
    have hit := h it (List.mem_cons_self it rest)
    have hrest := ih fun x hx => h x (List.mem_cons_of_mem it hx)
    simp [List.filterMap, itemBlock_of_valid fetchPage it hit, hrest, List.map]

/-- Central characterization of `get_all_details`: whenever the classifier's
outcome degrades or yields only well-formed candidates, the result is the
landing block followed by the block of each truthy-url candidate, in
candidate order. -/
theorem get_all_details_eq (join : String → String → String)
    (fetch : String → Except ReqErr Html)
    (classify : String → List String → Except PyErr (List Item))
    (url : String)
    (h : ∀ it ∈ get_relevant_links (classify url (Website.init join url (fetch url)).links),
      wellFormedItem it = true) :
    get_all_details join fetch classify url =
      .ok (landingSection url (Website.init join url (fetch url)) ::
        (get_relevant_links (classify url (Website.init join url (fetch url)).links)).filterMap
          (itemBlock fun u => Website.init join u (fetch u))) := by
  unfold get_all_details
  cases hrl : get_relevant_links (classify url (Website.init join url (fetch url)).links) with
  | nil => simp [hrl]
  | cons a as =>
    rw [hrl] at h
    simp only [hrl, List.isEmpty_cons, detailsLoop_wellFormed _ _ h]
    simp

/-- A stream of successful chunks is consumed in full. -/
theorem streamLoop_map_ok : ∀ pre : List String, streamLoop (pre.map Except.ok) = pre := by
  intro pre
  induction pre with
  | nil => rfl
  | cons s rest ih => simp [streamLoop, List.map, ih]

/-- A stream whose first error follows `pre` successful chunks yields the
texts of `pre`, then one `""`, then nothing. -/
theorem streamLoop_first_error (e : PyErr) (rest : List (Except PyErr String)) :
    ∀ pre : List String,
      streamLoop (pre.map Except.ok ++ Except.error e :: rest) = pre ++ [""] := by
  intro pre
  induction pre with
  | nil => rfl
  | cons s pre' ih => simp [streamLoop, List.map, ih]

/-- C2: `stream_brochure` never raises to its caller — it is a total map from
the stream oracle's outcome to a finite fragment list. On a setup error it
yields exactly `[""]`; on a mid-stream error after `pre` successful chunks it
yields the texts of `pre` followed by exactly one `""` and then terminates
with no further fragments; an error-free stream is passed through whole. -/
theorem stream_brochure_error_behaviour (e : PyErr) (pre : List String)
    (rest : List (Except PyErr String)) :
    stream_brochure (.error e) = [""] ∧
    stream_brochure (.ok (pre.map Except.ok ++ Except.error e :: rest)) = pre ++ [""] ∧
    stream_brochure (.ok (pre.map Except.ok)) = pre :=
  ⟨rfl, streamLoop_first_error e rest pre, streamLoop_map_ok pre⟩

/-- C1: for every URL, every landing-fetch outcome (success or failure) and
every classifier outcome (error, empty, or any list of well-formed
candidates), `get_all_details` returns a document with at least one block,
and the first block is the landing-page block, which carries the input URL in
its marker — even when the landing fetch failed and produced empty content. -/
theorem aggregate_always_landing_first (join : String → String → String)
    (fetch : String → Except ReqErr Html)
    (classify : String → List String → Except PyErr (List Item))
    (url : String)
    (h : ∀ it ∈ get_relevant_links (classify url (Website.init join url (fetch url)).links),
      wellFormedItem it = true) :
    ∃ blocks, get_all_details join fetch classify url = Except.ok blocks ∧
      1 ≤ blocks.length ∧
      blocks.head? = some (landingSection url (Website.init join url (fetch url))) ∧
      ∃ pre post, landingSection url (Website.init join url (fetch url)) = pre ++ (url ++ post) := by
  refine ⟨_, get_all_details_eq join fetch classify url h, by simp, rfl, ?_⟩
  refine ⟨"== START: Content from Landing Page (",
    ") ==\n" ++ (Website.init join url (fetch url)).get_contents
      ++ "== END: Content from Landing Page ==\n\n", ?_⟩
  simp only [landingSection, String.append_assoc]

/-- Closed instance of C1: a failing landing fetch and a failing classifier
still give a one-block document headed by the landing block. -/
theorem aggregate_always_landing_first_witness :
    (∀ it ∈ get_relevant_links (classifyErr "https://acme.test"
        (Website.init join0 "https://acme.test" (fetch0 "https://acme.test")).links),
      wellFormedItem it = true) ∧
    (∃ blocks, get_all_details join0 fetch0 classifyErr "https://acme.test" = Except.ok blocks ∧
      1 ≤ blocks.length ∧
      blocks.head? = some (landingSection "https://acme.test"
        (Website.init join0 "https://acme.test" (fetch0 "https://acme.test"))) ∧
      ∃ pre post, landingSection "https://acme.test"
        (Website.init join0 "https://acme.test" (fetch0 "https://acme.test")) =
          pre ++ ("https://acme.test" ++ post)) :=
  ⟨by simp [classifyErr, get_relevant_links],
   aggregate_always_landing_first join0 fetch0 classifyErr "https://acme.test"
     (by simp [classifyErr, get_relevant_links])⟩

/-- C4: if the classifier returns the empty candidate list, the document has
exactly the landing block; if it returns `N` valid candidates (dicts with
non-empty string urls), the document is the landing block followed by one
block per candidate in the classifier-returned order — `N + 1` blocks, and
this holds whatever each sub-page fetch returns (in particular when all
succeed). -/
theorem valid_candidates_one_section_each (join : String → String → String)
    (fetch : String → Except ReqErr Html)
    (classify : String → List String → Except PyErr (List Item))
    (url : String) (items : List Item)
    (hok : classify url (Website.init join url (fetch url)).links = Except.ok items)
    (hvalid : ∀ it ∈ items, validItem it = true) :
    get_all_details join fetch classify url =
      Except.ok (landingSection url (Website.init join url (fetch url)) ::
        items.map (validItemBlock fun u => Website.init join u (fetch u))) ∧
    (∀ blocks, get_all_details join fetch classify url = Except.ok blocks →
      blocks.length = items.length + 1) ∧
    (items = [] → get_all_details join fetch classify url =
      Except.ok [landingSection url (Website.init join url (fetch url))]) := by
  have hwf : ∀ it ∈ get_relevant_links (classify url (Website.init join url (fetch url)).links),
      wellFormedItem it = true := by
    rw [hok]
    intro it hit
    simp only [get_relevant_links] at hit
    exact validItem_wellFormed it (hvalid it hit)
  have hmain := get_all_details_eq join fetch classify url hwf
  rw [hok] at hmain
  simp only [get_relevant_links] at hmain
  rw [filterMap_itemBlock_of_valid _ items hvalid] at hmain
  refine ⟨hmain, ?_, ?_⟩
  · intro blocks hb
    rw [hmain] at hb
    cases hb
    simp
  · intro hempty
    subst hempty
    simpa using hmain

/-- Closed instance of C4: two valid candidates give exactly three blocks in
candidate order. -/
theorem valid_candidates_one_section_each_witness :
    classifyTwo "https://acme.test"
        (Website.init join0 "https://acme.test" (fetch0 "https://acme.test")).links =
      Except.ok items2 ∧
    (∀ it ∈ items2, validItem it = true) ∧
    (get_all_details join0 fetch0 classifyTwo "https://acme.test" =
      Except.ok (landingSection "https://acme.test"
          (Website.init join0 "https://acme.test" (fetch0 "https://acme.test")) ::
        items2.map (validItemBlock fun u => Website.init join0 u (fetch0 u))) ∧
    (∀ blocks, get_all_details join0 fetch0 classifyTwo "https://acme.test" = Except.ok blocks →
      blocks.length = items2.length + 1) ∧
    (items2 = [] → get_all_details join0 fetch0 classifyTwo "https://acme.test" =
      Except.ok [landingSection "https://acme.test"
        (Website.init join0 "https://acme.test" (fetch0 "https://acme.test"))])) :=
  ⟨rfl, by decide,
   valid_candidates_one_section_each join0 fetch0 classifyTwo "https://acme.test" items2
     rfl (by decide)⟩

/-- C5 (amended): the extracted link list is exactly the anchors' `href`
values in document order, each resolved through `urljoin` against the page's
own URL, with an anchor excluded when its `href` is missing **or empty**, or
starts with `#`, `mailto:` or `tel:`. -/
theorem extract_links_characterization (join : String → String → String) (url : String)
    (hrefs : List (Option String)) :
    extract_links join url hrefs = ((hrefs.filterMap id).filter linkGuard).map (join url) := by
  induction hrefs with
  | nil => rfl
  | cons h rest ih =>
    match h with
    | none => simpa [extract_links] using ih
    | some l =>
      by_cases hg : linkGuard l = true
      · simp [extract_links, hg, ih]
      · have hg' : linkGuard l = false := by simpa using hg
        simp [extract_links, hg', ih]

/-- C5 counterexample: an anchor with a present but *empty* `href` is
excluded by the code (`if link` is falsy on `""`), while the claim's reading
— exclude only missing hrefs and the `#`/`mailto:`/`tel:` ones — keeps it
and resolves it to the page's own URL. -/
theorem empty_href_code_vs_spec :
    extract_links join0 "https://example.com" [some ""] = [] ∧
    extract_links_spec join0 "https://example.com" [some ""] = ["https://example.com"] ∧
    extract_links join0 "https://example.com" [some ""] ≠
      extract_links_spec join0 "https://example.com" [some ""] :=
  ⟨rfl, rfl, by decide⟩

/-- C6 (amended): all fetch, classification and generation *error* outcomes
are swallowed — `get_all_details` returns a document for every fetch outcome
and every degraded or well-formed classifier outcome, `get_relevant_links`
turns any classification error into the empty candidate list, and
`stream_brochure` turns any generation error into a fragment list — but
(counterexample `malformed_candidate_raises_attributeError`) a classifier
*success* carrying structurally malformed candidate data makes
`get_all_details` raise an uncaught `AttributeError`. -/
theorem pipeline_ok_on_degraded_outcomes (join : String → String → String)
    (fetch : String → Except ReqErr Html)
    (classify : String → List String → Except PyErr (List Item))
    (url : String)
    (h : ∀ it ∈ get_relevant_links (classify url (Website.init join url (fetch url)).links),
      wellFormedItem it = true) :
    (∃ blocks, get_all_details join fetch classify url = Except.ok blocks) ∧
    (∀ e : PyErr, get_relevant_links (Except.error e) = []) ∧
    (∀ e : PyErr, stream_brochure (Except.error e) = [""]) :=
  ⟨⟨_, get_all_details_eq join fetch classify url h⟩, fun _ => rfl, fun _ => rfl⟩

/-- Closed instance of C6 (amended) at a well-formed classifier outcome. -/
theorem pipeline_ok_on_degraded_outcomes_witness :
    (∀ it ∈ get_relevant_links (classifyTwo "https://acme.test"
        (Website.init join0 "https://acme.test" (fetch0 "https://acme.test")).links),
      wellFormedItem it = true) ∧
    ((∃ blocks, get_all_details join0 fetch0 classifyTwo "https://acme.test" = Except.ok blocks) ∧
     (∀ e : PyErr, get_relevant_links (Except.error e) = []) ∧
     (∀ e : PyErr, stream_brochure (Except.error e) = [""])) :=
  ⟨by decide,
   pipeline_ok_on_degraded_outcomes join0 fetch0 classifyTwo "https://acme.test" (by decide)⟩

/-- C6 counterexample: when the classifier's JSON parses but the `"links"`
list holds a bare string, `link_info.get("url")` raises `AttributeError`
inside `get_all_details` and the exception propagates to the caller. -/
theorem malformed_candidate_raises_attributeError :
    get_all_details join0 fetch0 classifyMalformed "https://acme.test" =
      Except.error PyErr.attributeError :=
  rfl

/-- C7: with the credential present, `configure_api` configures (or halts
cleanly when `genai.configure` fails); with the credential *absent*, the
code does not reach the clean `st.error`/`st.stop` halt the spec prescribes:
the `pass()` line is a syntax error, and read generously as `pass`, `api_key`
is unbound so the following `if not api_key:` raises — an unrelated error
instead of the documented fatal configuration stop. -/
theorem missing_credential_unclean_failure :
    configure_api none (fun _ => true) = ConfigResult.raised PyErr.unboundLocal ∧
    configure_api none (fun _ => true) ≠ ConfigResult.stopped ∧
    configure_api (some "k") (fun _ => true) = ConfigResult.configured ∧
    configure_api (some "k") (fun _ => false) = ConfigResult.stopped :=
  ⟨rfl, by decide, rfl, rfl⟩

/-- C8 (amended): the aggregator does not validate absoluteness — every
candidate whose url value is a non-empty string yields a block, whether the
url is absolute or not (a non-absolute url merely makes its fetch fail and
its block empty-bodied); only candidates with a missing or empty url are
skipped. -/
theorem nonempty_url_candidate_gets_section (join : String → String → String)
    (fetch : String → Except ReqErr Html)
    (classify : String → List String → Except PyErr (List Item))
    (url u ty : String)
    (hu : u ≠ "")
    (hok : classify url (Website.init join url (fetch url)).links =
      Except.ok [Item.idict (some (PyVal.vstr u)) (some (PyVal.vstr ty))]) :
    get_all_details join fetch classify url =
      Except.ok [landingSection url (Website.init join url (fetch url)),
        subSection (pyTitle ty) u ((Website.init join u (fetch u)).get_contents)] := by
  have hvalid : ∀ it ∈ [Item.idict (some (PyVal.vstr u)) (some (PyVal.vstr ty))],
      validItem it = true := by
    intro it hit
    simp only [List.mem_singleton] at hit
    subst hit
    simp [validItem, optStrOk, hu]
  have hwf : ∀ it ∈ get_relevant_links (classify url (Website.init join url (fetch url)).links),
      wellFormedItem it = true := by
    rw [hok]
    intro it hit
    simp only [get_relevant_links] at hit
    exact validItem_wellFormed it (hvalid it hit)
  have hmain := get_all_details_eq join fetch classify url hwf
  rw [hok] at hmain
  simp only [get_relevant_links] at hmain
  rw [filterMap_itemBlock_of_valid _ _ hvalid] at hmain
  simpa [validItemBlock, candLabel, candUrl, pyStr] using hmain

/-- Closed instance of C8 (amended): the relative url `"about"` still gets a
block. -/
theorem nonempty_url_candidate_gets_section_witness :
    ("about" : String) ≠ "" ∧
    classifyRelative "https://acme.test"
        (Website.init join0 "https://acme.test" (fetch0 "https://acme.test")).links =
      Except.ok [Item.idict (some (PyVal.vstr "about")) (some (PyVal.vstr "About Us"))] ∧
    get_all_details join0 fetch0 classifyRelative "https://acme.test" =
      Except.ok [landingSection "https://acme.test"
          (Website.init join0 "https://acme.test" (fetch0 "https://acme.test")),
        subSection (pyTitle "About Us") "about"
          ((Website.init join0 "about" (fetch0 "about")).get_contents)] :=
  ⟨by decide, rfl,
   nonempty_url_candidate_gets_section join0 fetch0 classifyRelative
     "https://acme.test" "about" "About Us" (by decide) rfl⟩

/-- C8 counterexample: a candidate whose url `"about"` is *not* absolute is
not ignored — the aggregated document has two blocks, not one. -/
theorem relative_candidate_still_gets_section :
    (get_all_details join0 fetch0 classifyRelative "https://acme.test").map List.length =
      Except.ok 2 ∧
    (get_all_details join0 fetch0 classifyRelative "https://acme.test").map List.length ≠
      Except.ok 1 :=
  ⟨rfl, by
    rw [show (get_all_details join0 fetch0 classifyRelative "https://acme.test").map List.length =
      Except.ok 2 from rfl]
    simp⟩

/-- C9: a request with an empty company name, an empty URL, or a URL whose
parse lacks a scheme or a netloc is rejected by `run_app`'s validation, and
the pipeline never starts: no fetch, classification or generation oracle is
consulted (the `rejected` branch is taken before any of them is applied). -/
theorem invalid_request_rejected (parse : String → ParsedUrl)
    (join : String → String → String)
    (fetch : String → Except ReqErr Html)
    (classify : String → List String → Except PyErr (List Item))
    (setup : String → String → String → Except PyErr (List (Except PyErr String)))
    (companyName url tone : String)
    (h : companyName = "" ∨ url = "" ∨ (parse url).scheme = "" ∨ (parse url).netloc = "") :
    run_app parse join fetch classify setup companyName url tone = RunOutcome.rejected := by
  unfold run_app
  rcases h with h | h | h | h
  · simp [h]
  · simp [h]
  · simp [h]
  · simp [h]

/-- Closed instance of C9: a URL that parses with no scheme is rejected. -/
theorem invalid_request_rejected_witness :
    (parse0 "acme.test").scheme = "" ∧
    run_app parse0 join0 fetch0 classifyErr setup0 "Acme" "acme.test" "professional" =
      RunOutcome.rejected :=
  ⟨rfl,
   invalid_request_rejected parse0 join0 fetch0 classifyErr setup0
     "Acme" "acme.test" "professional" (Or.inr (Or.inr (Or.inl rfl)))⟩

/-- C10: over any well-formed classifier outcome, the document is the landing
block plus one block exactly per candidate with a truthy (present, non-empty)
url — so its length is `1 +` that count, not `1 +` the total candidate
count; candidates with a missing or empty url are skipped outright, and a
candidate with a url but no `type` field gets the default label `"page"`,
title-cased to `"Page"` in its block marker. -/
theorem aggregator_skip_and_default_label (join : String → String → String)
    (fetch : String → Except ReqErr Html)
    (classify : String → List String → Except PyErr (List Item))
    (url : String) (items : List Item)
    (hok : classify url (Website.init join url (fetch url)).links = Except.ok items)
    (h : ∀ it ∈ items, wellFormedItem it = true) :
    (∃ blocks, get_all_details join fetch classify url = Except.ok blocks ∧
      blocks = landingSection url (Website.init join url (fetch url)) ::
        items.filterMap (itemBlock fun u => Website.init join u (fetch u)) ∧
      blocks.length = 1 + items.countP hasUrlVal) ∧
    (∀ t, itemBlock (fun u => Website.init join u (fetch u)) (Item.idict none t) = none) ∧
    (∀ t, itemBlock (fun u => Website.init join u (fetch u))
      (Item.idict (some (PyVal.vstr "")) t) = none) ∧
    (∀ u2, u2 ≠ "" →
      itemBlock (fun u => Website.init join u (fetch u)) (Item.idict (some (PyVal.vstr u2)) none) =
        some (subSection "Page" u2 ((Website.init join u2 (fetch u2)).get_contents))) := by
  have hwf : ∀ it ∈ get_relevant_links (classify url (Website.init join url (fetch url)).links),
      wellFormedItem it = true := by
    rw [hok]
    intro it hit
    simp only [get_relevant_links] at hit
    exact h it hit
  have hmain := get_all_details_eq join fetch classify url hwf
  rw [hok] at hmain
  simp only [get_relevant_links] at hmain
  have hpage : pyTitle "page" = "Page" := by decide
  refine ⟨⟨_, hmain, rfl, ?_⟩, fun t => rfl, fun t => by simp [itemBlock, pyTruthy],
    fun u2 hu2 => ?_⟩
  · simp only [List.length_cons, length_filterMap_eq_countP]
    rw [List.countP_congr fun it hit => by
      rw [itemBlock_isSome (fun u => Website.init join u (fetch u)) it (h it hit)]]
    omega
  · have hu2' : (u2 == "") = false := by simpa using hu2
    simp [itemBlock, pyTruthy, hu2', pyTitleVal, Option.getD, pyStr, hpage]

/-- Closed instance of C10: of three candidates (url without type, no url,
empty url) only the first yields a block, labeled `"Page"`. -/
theorem aggregator_skip_and_default_label_witness :
    classifyMixed "https://acme.test"
        (Website.init join0 "https://acme.test" (fetch0 "https://acme.test")).links =
      Except.ok itemsMixed ∧
    (∀ it ∈ itemsMixed, wellFormedItem it = true) ∧
    ((∃ blocks, get_all_details join0 fetch0 classifyMixed "https://acme.test" = Except.ok blocks ∧
      blocks = landingSection "https://acme.test"
          (Website.init join0 "https://acme.test" (fetch0 "https://acme.test")) ::
        itemsMixed.filterMap (itemBlock fun u => Website.init join0 u (fetch0 u)) ∧
      blocks.length = 1 + itemsMixed.countP hasUrlVal) ∧
    (∀ t, itemBlock (fun u => Website.init join0 u (fetch0 u)) (Item.idict none t) = none) ∧
    (∀ t, itemBlock (fun u => Website.init join0 u (fetch0 u))
      (Item.idict (some (PyVal.vstr "")) t) = none) ∧
    (∀ u2, u2 ≠ "" →
      itemBlock (fun u => Website.init join0 u (fetch0 u))
          (Item.idict (some (PyVal.vstr u2)) none) =
        some (subSection "Page" u2 ((Website.init join0 u2 (fetch0 u2)).get_contents)))) :=
  ⟨rfl, by decide,
   aggregator_skip_and_default_label join0 fetch0 classifyMixed "https://acme.test" itemsMixed
     rfl (by decide)⟩
